import Mathlib

/-!
Shallow embedding of the payments-engine repository.

Amounts, which the source stores as exact decimals, are modelled as
rationals; client ids (u16) and transaction ids (u32) are modelled as
naturals.  The two hash maps of the engine are modelled as association
lists with one binding per key (alookup / ainsert below model get,
get_mut and insert of the map ADT).  Code paths that panic in the source
-- the two calls to unwrap inside PaymentsEngine::execute -- are
modelled by returning none.
-/

/-- Association-list lookup, modelling HashMap::get. -/
def alookup {β : Type} : List (Nat × β) → Nat → Option β
  | [], _ => none
  | (k', v) :: rest, k => if k = k' then some v else alookup rest k

/-- Association-list insert, modelling HashMap::insert: replaces the
first binding of the key in place, otherwise appends. -/
def ainsert {β : Type} : List (Nat × β) → Nat → β → List (Nat × β)
  | [], k, v => [(k, v)]
  | (k', v') :: rest, k, v =>
      if k = k' then (k, v) :: rest else (k', v') :: ainsert rest k v

/-- A client account (src/account.rs, struct Account). -/
structure Account where
  id : Nat
  available : ℚ
  held : ℚ
  total : ℚ
  locked : Bool
deriving DecidableEq, Repr

/-- Account::new (src/account.rs): zeroed, unlocked account. -/
def Account.new (id : Nat) : Account :=
  { id := id, available := 0, held := 0, total := 0, locked := false }

/-- Account::deposit (src/account.rs): unconditionally increases
available and total. -/
def Account.deposit (a : Account) (amount : ℚ) : Account :=
  { a with available := a.available + amount, total := a.total + amount }

/-- Account::withdraw (src/account.rs): no effect and false when the
amount exceeds available, otherwise decreases available and total and
returns true. -/
def Account.withdraw (a : Account) (amount : ℚ) : Account × Bool :=
  if amount > a.available then (a, false)
  else ({ a with available := a.available - amount, total := a.total - amount }, true)

/-- Account::dispute (src/account.rs): moves the amount from available
to held, no effect when the amount exceeds available. -/
def Account.dispute (a : Account) (amount : ℚ) : Account :=
  if amount > a.available then a
  else { a with available := a.available - amount, held := a.held + amount }

/-- Account::resolve (src/account.rs): moves the amount from held back
to available, no effect when the amount exceeds held. -/
def Account.resolve (a : Account) (amount : ℚ) : Account :=
  if amount > a.held then a
  else { a with held := a.held - amount, available := a.available + amount }

/-- Account::chargeback (src/account.rs): decreases held and total and
locks the account, no effect when the amount exceeds held. -/
def Account.chargeback (a : Account) (amount : ℚ) : Account :=
  if amount > a.held then a
  else { a with held := a.held - amount, total := a.total - amount, locked := true }

/-- TransactionKind (src/transaction_kind.rs). -/
inductive TransactionKind where
  | Deposit
  | Withdrawal
  | Dispute
  | Resolve
  | Chargeback
deriving DecidableEq, Repr

/-- Transaction (src/transaction.rs). -/
structure Transaction where
  kind : TransactionKind
  client_id : Nat
  id : Nat
  amount : Option ℚ
  disputed : Bool
deriving DecidableEq, Repr

/-- Transaction::new (src/transaction.rs): disputed starts false. -/
def Transaction.new (kind : TransactionKind) (client_id : Nat) (id : Nat)
    (amount : Option ℚ) : Transaction :=
  { kind := kind, client_id := client_id, id := id, amount := amount, disputed := false }

/-- PaymentsEngine (src/payments_engine.rs): account table and history
of recorded transfer transactions. -/
structure PaymentsEngine where
  accounts : List (Nat × Account)
  history : List (Nat × Transaction)
deriving DecidableEq, Repr

/-- PaymentsEngine::new (src/payments_engine.rs). -/
def PaymentsEngine.new : PaymentsEngine :=
  { accounts := [], history := [] }

/-- handle_transfer (src/payments_engine.rs lines 86-94): applies the
deposit or the withdrawal to the account and returns, as the second
component, whether the transaction should enter history -- which the
source computes as kind == Deposit, discarding the bool returned by
Account::withdraw. -/
def handle_transfer (kind : TransactionKind) (account : Account) (amount : ℚ) :
    Account × Bool :=
  let account' := if kind = TransactionKind.Deposit
    then account.deposit amount
    else (account.withdraw amount).1
  (account', decide (kind = TransactionKind.Deposit))

/-- handle_claim (src/payments_engine.rs lines 97-103): dispatches a
claim to the matching account operation. -/
def handle_claim (kind : TransactionKind) (client : Account) (amount : ℚ) : Account :=
  match kind with
  | TransactionKind.Dispute => client.dispute amount
  | TransactionKind.Resolve => client.resolve amount
  | _ => client.chargeback amount

/-- The tail of the claim branch of PaymentsEngine::execute
(src/payments_engine.rs lines 64-79) once the flag update decided to
proceed: rewrite the disputed flag of the history record to flag, then
look up the account for the claim transaction client id -- the
source unwraps here, modelled as none on a missing account or a missing
amount -- and apply handle_claim with the recorded transfer amount. -/
def PaymentsEngine.applyClaim (e : PaymentsEngine) (tx dtx : Transaction)
    (flag : Bool) : Option PaymentsEngine :=
  let history' := ainsert e.history tx.id { dtx with disputed := flag }
  match alookup e.accounts tx.client_id, dtx.amount with
  | some account, some amt =>
      some { accounts := ainsert e.accounts tx.client_id (handle_claim tx.kind account amt),
             history := history' }
  | _, _ => none

/-- PaymentsEngine::execute (src/payments_engine.rs lines 40-81).
Transfer branch: find or create the account, apply handle_transfer,
record the transaction in history when handle_transfer says so; the
unwrap of tx.amount is modelled as none when the amount is missing.
Claim branch: ignore the transaction when its id is not in history;
a Dispute sets the disputed flag unconditionally, Resolve and
Chargeback proceed only when the flag is set and clear it; then the
account effect is applied through applyClaim. -/
def PaymentsEngine.execute (e : PaymentsEngine) (tx : Transaction) :
    Option PaymentsEngine :=
  match tx.kind with
  | TransactionKind.Deposit | TransactionKind.Withdrawal =>
      match tx.amount with
      | none => none
      | some amt =>
          let account := (alookup e.accounts tx.client_id).getD (Account.new tx.client_id)
          let result := handle_transfer tx.kind account amt
          if result.2 then
            some { accounts := ainsert e.accounts tx.client_id result.1,
                   history := ainsert e.history tx.id tx }
          else
            some { accounts := ainsert e.accounts tx.client_id result.1,
                   history := e.history }
  | _ =>
      match alookup e.history tx.id with
      | none => some e
      | some dtx =>
          if tx.kind = TransactionKind.Dispute then
            e.applyClaim tx dtx true
          else if dtx.disputed then
            e.applyClaim tx dtx false
          else
            some e

/-- Process a finite sequence of transactions in order through
PaymentsEngine::execute, stopping with none when a step panics. -/
def execRun (e : PaymentsEngine) : List Transaction → Option PaymentsEngine
  | [] => some e
  | tx :: txs =>
      match e.execute tx with
      | none => none
      | some e' => execRun e' txs

/-- The per-account invariant of the spec: total equals available plus
held. -/
def accountInv (acc : Account) : Prop := acc.total = acc.available + acc.held

/-- The reachable-state invariant of the engine: every account satisfies
the balance equation, and every history record carries an amount and
refers to a client that has an account. -/
def EngineInv (e : PaymentsEngine) : Prop :=
  (∀ c acc, alookup e.accounts c = some acc → accountInv acc) ∧
  (∀ i rec, alookup e.history i = some rec →
      rec.amount.isSome = true ∧ (alookup e.accounts rec.client_id).isSome = true)

section AssocLemmas

variable {β : Type}

lemma alookup_ainsert (l : List (Nat × β)) (k k' : Nat) (v : β) :
    alookup (ainsert l k v) k' = if k' = k then some v else alookup l k' := by
  induction l with
  | nil => by_cases h : k' = k <;> simp [ainsert, alookup, h]
  | cons hd tl ih =>
      obtain ⟨k0, v0⟩ := hd
      by_cases h0 : k = k0
      · subst h0
        by_cases h1 : k' = k <;> simp [ainsert, alookup, h1]
      · by_cases h1 : k' = k0
        · subst h1
          simp [ainsert, alookup, h0, Ne.symm h0, ih]
        · simp [ainsert, alookup, h0, h1, ih]

lemma ainsert_lookup_self (l : List (Nat × β)) (k : Nat) (v : β)
    (h : alookup l k = some v) : ainsert l k v = l := by
  induction l with
  | nil => simp [alookup] at h
  | cons hd tl ih =>
      obtain ⟨k0, v0⟩ := hd
      by_cases h0 : k = k0
      · subst h0
        simp [alookup] at h
        simp [ainsert, h]
      · simp [alookup, h0] at h
        simp [ainsert, h0, ih h]

lemma alookup_ainsert_isSome (l : List (Nat × β)) (k k' : Nat) (v : β)
    (h : (alookup l k').isSome = true) :
    (alookup (ainsert l k v) k').isSome = true := by
  rw [alookup_ainsert]
  by_cases hk : k' = k <;> simp [hk, h]

end AssocLemmas

lemma accountInv_new (id : Nat) : accountInv (Account.new id) := by
  simp [accountInv, Account.new]

lemma accountInv_deposit {acc : Account} (a : ℚ) (h : accountInv acc) :
    accountInv (acc.deposit a) := by
  simp only [accountInv, Account.deposit] at *
  linarith

lemma accountInv_withdraw {acc : Account} (a : ℚ) (h : accountInv acc) :
    accountInv (acc.withdraw a).1 := by
  simp only [accountInv, Account.withdraw] at *
  split
  · simpa using h
  · simp
    linarith

lemma accountInv_dispute {acc : Account} (a : ℚ) (h : accountInv acc) :
    accountInv (acc.dispute a) := by
  simp only [accountInv, Account.dispute] at *
  split
  · exact h
  · simp
    linarith

lemma accountInv_resolve {acc : Account} (a : ℚ) (h : accountInv acc) :
    accountInv (acc.resolve a) := by
  simp only [accountInv, Account.resolve] at *
  split
  · exact h
  · simp
    linarith

lemma accountInv_chargeback {acc : Account} (a : ℚ) (h : accountInv acc) :
    accountInv (acc.chargeback a) := by
  simp only [accountInv, Account.chargeback] at *
  split
  · exact h
  · simp
    linarith

lemma accountInv_handle_transfer {acc : Account} (kind : TransactionKind) (a : ℚ)
    (h : accountInv acc) : accountInv (handle_transfer kind acc a).1 := by
  simp only [handle_transfer]
  split
  · exact accountInv_deposit a h
  · exact accountInv_withdraw a h

lemma accountInv_handle_claim {acc : Account} (kind : TransactionKind) (a : ℚ)
    (h : accountInv acc) : accountInv (handle_claim kind acc a) := by
  cases kind <;>
    simp only [handle_claim] <;>
    first
      | exact accountInv_dispute a h
      | exact accountInv_resolve a h
      | exact accountInv_chargeback a h

lemma engineInv_new : EngineInv PaymentsEngine.new := by
  constructor <;> intro i x h <;> simp [PaymentsEngine.new, alookup] at h

lemma accountInv_getD {e : PaymentsEngine} (hinv : EngineInv e) (c : Nat) :
    accountInv ((alookup e.accounts c).getD (Account.new c)) := by
  cases h : alookup e.accounts c with
  | none => simpa using accountInv_new c
  | some a => simpa using hinv.1 c a h

lemma execute_deposit {e : PaymentsEngine} {tx : Transaction} {amt : ℚ}
    (htx : tx.kind = TransactionKind.Deposit) (hamt : tx.amount = some amt) :
    e.execute tx = some
      { accounts := ainsert e.accounts tx.client_id
          (((alookup e.accounts tx.client_id).getD (Account.new tx.client_id)).deposit amt),
        history := ainsert e.history tx.id tx } := by
  simp [PaymentsEngine.execute, htx, hamt, handle_transfer]

lemma execute_withdrawal {e : PaymentsEngine} {tx : Transaction} {amt : ℚ}
    (htx : tx.kind = TransactionKind.Withdrawal) (hamt : tx.amount = some amt) :
    e.execute tx = some
      { accounts := ainsert e.accounts tx.client_id
          ((((alookup e.accounts tx.client_id).getD (Account.new tx.client_id)).withdraw amt).1),
        history := e.history } := by
  simp [PaymentsEngine.execute, htx, hamt, handle_transfer]

lemma execute_claim_notfound {e : PaymentsEngine} {tx : Transaction}
    (hk : tx.kind = TransactionKind.Dispute ∨ tx.kind = TransactionKind.Resolve ∨
          tx.kind = TransactionKind.Chargeback)
    (hh : alookup e.history tx.id = none) :
    e.execute tx = some e := by
  rcases hk with h | h | h <;> simp [PaymentsEngine.execute, h, hh]

lemma execute_dispute_found {e : PaymentsEngine} {tx dtx : Transaction}
    (hk : tx.kind = TransactionKind.Dispute)
    (hh : alookup e.history tx.id = some dtx) :
    e.execute tx = e.applyClaim tx dtx true := by
  simp [PaymentsEngine.execute, hk, hh]

lemma execute_rc_found {e : PaymentsEngine} {tx dtx : Transaction}
    (hk : tx.kind = TransactionKind.Resolve ∨ tx.kind = TransactionKind.Chargeback)
    (hh : alookup e.history tx.id = some dtx) :
    e.execute tx = if dtx.disputed then e.applyClaim tx dtx false else some e := by
  rcases hk with h | h <;> simp [PaymentsEngine.execute, h, hh]

lemma applyClaim_eq {e : PaymentsEngine} {tx dtx : Transaction} {flag : Bool}
    {acc : Account} {amt : ℚ}
    (hacc : alookup e.accounts tx.client_id = some acc) (hamt : dtx.amount = some amt) :
    e.applyClaim tx dtx flag = some
      { accounts := ainsert e.accounts tx.client_id (handle_claim tx.kind acc amt),
        history := ainsert e.history tx.id { dtx with disputed := flag } } := by
  simp [PaymentsEngine.applyClaim, hacc, hamt]

lemma applyClaim_none_of_no_account {e : PaymentsEngine} {tx dtx : Transaction} {flag : Bool}
    (hacc : alookup e.accounts tx.client_id = none) :
    e.applyClaim tx dtx flag = none := by
  simp [PaymentsEngine.applyClaim, hacc]

lemma transfer_inv {e : PaymentsEngine} {tx : Transaction} (hinv : EngineInv e)
    {acc' : Account} (hacc' : accountInv acc') {hist' : List (Nat × Transaction)}
    (hh : (hist' = ainsert e.history tx.id tx ∧ tx.amount.isSome = true) ∨
          hist' = e.history) :
    EngineInv { accounts := ainsert e.accounts tx.client_id acc', history := hist' } := by
  constructor
  · intro c acc0 hl
    simp only [alookup_ainsert] at hl
    by_cases hc : c = tx.client_id
    · simp [hc] at hl
      rw [← hl]
      exact hacc'
    · simp [hc] at hl
      exact hinv.1 c acc0 hl
  · intro i rec hl
    rcases hh with ⟨rfl, hamt⟩ | rfl
    · simp only [alookup_ainsert] at hl
      by_cases hi : i = tx.id
      · simp [hi] at hl
        rw [← hl]
        refine ⟨hamt, ?_⟩
        simp [alookup_ainsert]
      · simp [hi] at hl
        obtain ⟨h1, h2⟩ := hinv.2 i rec hl
        exact ⟨h1, alookup_ainsert_isSome _ _ _ _ h2⟩
    · simp only at hl
      obtain ⟨h1, h2⟩ := hinv.2 i rec hl
      exact ⟨h1, alookup_ainsert_isSome _ _ _ _ h2⟩

lemma applyClaim_some_inv {e e' : PaymentsEngine} {tx dtx : Transaction} {flag : Bool}
    (hinv : EngineInv e) (hdtx : alookup e.history tx.id = some dtx)
    (h : e.applyClaim tx dtx flag = some e') : EngineInv e' := by
  cases hacc : alookup e.accounts tx.client_id with
  | none => rw [applyClaim_none_of_no_account hacc] at h; exact absurd h (by simp)
  | some acc =>
      cases hamt : dtx.amount with
      | none => simp [PaymentsEngine.applyClaim, hacc, hamt] at h
      | some amt =>
          rw [applyClaim_eq hacc hamt] at h
          obtain rfl := Option.some.inj h
          constructor
          · intro c acc0 hl
            simp only [alookup_ainsert] at hl
            by_cases hc : c = tx.client_id
            · simp [hc] at hl
              rw [← hl]
              exact accountInv_handle_claim tx.kind amt (hinv.1 _ _ hacc)
            · simp [hc] at hl
              exact hinv.1 c acc0 hl
          · intro i rec hl
            simp only [alookup_ainsert] at hl
            by_cases hi : i = tx.id
            · simp [hi] at hl
              rw [← hl]
              refine ⟨by simp [hamt], ?_⟩
              exact alookup_ainsert_isSome _ _ _ _ (hinv.2 _ _ hdtx).2
            · simp [hi] at hl
              obtain ⟨h1, h2⟩ := hinv.2 i rec hl
              exact ⟨h1, alookup_ainsert_isSome _ _ _ _ h2⟩

lemma execute_some_inv {e e' : PaymentsEngine} {tx : Transaction}
    (hinv : EngineInv e) (h : e.execute tx = some e') : EngineInv e' := by
  cases hk : tx.kind with
  | Deposit =>
      cases hamt : tx.amount with
      | none => simp [PaymentsEngine.execute, hk, hamt] at h
      | some amt =>
          rw [execute_deposit hk hamt] at h
          obtain rfl := Option.some.inj h
          exact transfer_inv hinv
            (accountInv_deposit amt (accountInv_getD hinv tx.client_id))
            (Or.inl ⟨rfl, by simp [hamt]⟩)
  | Withdrawal =>
      cases hamt : tx.amount with
      | none => simp [PaymentsEngine.execute, hk, hamt] at h
      | some amt =>
          rw [execute_withdrawal hk hamt] at h
          obtain rfl := Option.some.inj h
          exact transfer_inv hinv
            (accountInv_withdraw amt (accountInv_getD hinv tx.client_id))
            (Or.inr rfl)
  | Dispute =>
      cases hh : alookup e.history tx.id with
      | none => rw [execute_claim_notfound (Or.inl hk) hh] at h
                obtain rfl := Option.some.inj h
                exact hinv
      | some dtx =>
          rw [execute_dispute_found hk hh] at h
          exact applyClaim_some_inv hinv hh h
  | Resolve =>
      cases hh : alookup e.history tx.id with
      | none => rw [execute_claim_notfound (Or.inr (Or.inl hk)) hh] at h
                obtain rfl := Option.some.inj h
                exact hinv
      | some dtx =>
          rw [execute_rc_found (Or.inl hk) hh] at h
          by_cases hd : dtx.disputed
          · rw [if_pos hd] at h
            exact applyClaim_some_inv hinv hh h
          · rw [if_neg hd] at h
            obtain rfl := Option.some.inj h
            exact hinv
  | Chargeback =>
      cases hh : alookup e.history tx.id with
      | none => rw [execute_claim_notfound (Or.inr (Or.inr hk)) hh] at h
                obtain rfl := Option.some.inj h
                exact hinv
      | some dtx =>
          rw [execute_rc_found (Or.inr hk) hh] at h
          by_cases hd : dtx.disputed
          · rw [if_pos hd] at h
            exact applyClaim_some_inv hinv hh h
          · rw [if_neg hd] at h
            obtain rfl := Option.some.inj h
            exact hinv

lemma execRun_some_inv :
    ∀ (txs : List Transaction) (e e' : PaymentsEngine),
      EngineInv e → execRun e txs = some e' → EngineInv e' := by
  intro txs
  induction txs with
  | nil =>
      intro e e' hinv h
      simp only [execRun] at h
      obtain rfl := Option.some.inj h
      exact hinv
  | cons tx rest ih =>
      intro e e' hinv h
      simp only [execRun] at h
      cases hstep : e.execute tx with
      | none => rw [hstep] at h; exact absurd h (by simp)
      | some e1 =>
          rw [hstep] at h
          exact ih e1 e' (execute_some_inv hinv hstep) h

/-- C1: for every finite sequence of transactions processed through
PaymentsEngine::execute from a fresh engine, every account in the
account table satisfies total = available + held; applied to every
prefix of a stream, this is the balance invariant at every observable
point (each account operation preserves the equation, see the
accountInv lemmas above). -/
theorem C1_engine_balance_invariant (txs : List Transaction) (e : PaymentsEngine)
    (hrun : execRun PaymentsEngine.new txs = some e) :
    ∀ c acc, alookup e.accounts c = some acc →
      acc.total = acc.available + acc.held :=
  fun c acc hl =>
    (execRun_some_inv txs PaymentsEngine.new e engineInv_new hrun).1 c acc hl

/-- Witness for C1 at a concrete two-transaction run: deposit 10 then
dispute it; the resulting account satisfies the balance equation. -/
theorem C1_witness :
    ({ id := 1, available := 0, held := 10, total := 10, locked := false } : Account).total
      = ({ id := 1, available := 0, held := 10, total := 10, locked := false } : Account).available
        + ({ id := 1, available := 0, held := 10, total := 10, locked := false } : Account).held :=
  C1_engine_balance_invariant
    [Transaction.new TransactionKind.Deposit 1 1 (some 10),
     Transaction.new TransactionKind.Dispute 1 1 none]
    { accounts := [(1, { id := 1, available := 0, held := 10, total := 10, locked := false })],
      history := [(1, { kind := TransactionKind.Deposit, client_id := 1, id := 1,
                        amount := some 10, disputed := true })] }
    (by norm_num +decide [execRun, PaymentsEngine.execute, PaymentsEngine.applyClaim,
          PaymentsEngine.new, handle_transfer, handle_claim, Account.new, Account.deposit,
          Account.dispute, alookup, ainsert, Transaction.new])
    1 _ (by norm_num [alookup])

/-- C4: a Dispute, Resolve or Chargeback whose transaction id is absent
from history leaves the whole engine state unchanged: same account
table, same history. -/
theorem C4_unknown_claim_noop (e : PaymentsEngine) (tx : Transaction)
    (hk : tx.kind = TransactionKind.Dispute ∨ tx.kind = TransactionKind.Resolve ∨
          tx.kind = TransactionKind.Chargeback)
    (habs : alookup e.history tx.id = none) :
    e.execute tx = some e :=
  execute_claim_notfound hk habs

/-- Witness for C4: a Dispute referencing the unknown id 99 on a
nonempty engine returns the engine unchanged. -/
theorem C4_witness :
    PaymentsEngine.execute
      { accounts := [(1, { id := 1, available := 10, held := 0, total := 10, locked := false })],
        history := [(1, Transaction.new TransactionKind.Deposit 1 1 (some 10))] }
      (Transaction.new TransactionKind.Dispute 1 99 none)
      = some
      { accounts := [(1, { id := 1, available := 10, held := 0, total := 10, locked := false })],
        history := [(1, Transaction.new TransactionKind.Deposit 1 1 (some 10))] } :=
  C4_unknown_claim_noop _ _ (Or.inl rfl) rfl

/-- C6: Account::withdraw with an amount at most available returns true
and decreases available and total by exactly that amount, leaving held
and locked unchanged; with a larger amount it returns false and leaves
the account entirely unchanged. -/
theorem C6_withdraw_spec (acc : Account) (w : ℚ) :
    (w ≤ acc.available →
      acc.withdraw w =
        ({ acc with available := acc.available - w, total := acc.total - w }, true)) ∧
    (acc.available < w → acc.withdraw w = (acc, false)) := by
  constructor
  · intro h
    rw [Account.withdraw, if_neg (not_lt.mpr h)]
  · intro h
    rw [Account.withdraw, if_pos h]

/-- Witness for C6: withdrawing 3 from an account with 10 available
succeeds and moves available to 7 and total to 9. -/
theorem C6_witness :
    Account.withdraw { id := 1, available := 10, held := 2, total := 12, locked := false } 3
      = ({ id := 1, available := 7, held := 2, total := 9, locked := false }, true) := by
  have h := (C6_withdraw_spec
    { id := 1, available := 10, held := 2, total := 12, locked := false } 3).1 (by norm_num)
  rw [h]
  norm_num

/-- C7: Account::chargeback with an amount at most held decreases held
and total by exactly that amount, leaves available unchanged and sets
locked; with a larger amount it leaves the account entirely unchanged,
locked flag included. -/
theorem C7_chargeback_spec (acc : Account) (a : ℚ) :
    (a ≤ acc.held →
      acc.chargeback a =
        { acc with held := acc.held - a, total := acc.total - a, locked := true }) ∧
    (acc.held < a → acc.chargeback a = acc) := by
  constructor
  · intro h
    rw [Account.chargeback, if_neg (not_lt.mpr h)]
  · intro h
    rw [Account.chargeback, if_pos h]

/-- Witness for C7: charging back 5 of 5 held leaves available at 5,
drops total to 5 and locks the account. -/
theorem C7_witness :
    Account.chargeback { id := 1, available := 5, held := 5, total := 10, locked := false } 5
      = { id := 1, available := 5, held := 0, total := 5, locked := true } := by
  have h := (C7_chargeback_spec
    { id := 1, available := 5, held := 5, total := 10, locked := false } 5).1 (by norm_num)
  rw [h]
  norm_num

/-- C5: for a Resolve or Chargeback whose transaction id is in history,
if the history record is not flagged disputed the engine is left
entirely unchanged; if it is flagged, the record is rewritten with the
flag cleared and the corresponding account effect is applied with the
recorded amount. -/
theorem C5_resolve_chargeback_flag_protocol (e : PaymentsEngine) (tx rec : Transaction)
    (hk : tx.kind = TransactionKind.Resolve ∨ tx.kind = TransactionKind.Chargeback)
    (hrec : alookup e.history tx.id = some rec) :
    (rec.disputed = false → e.execute tx = some e) ∧
    (∀ acc amt, rec.disputed = true →
      alookup e.accounts tx.client_id = some acc → rec.amount = some amt →
      e.execute tx = some
        { accounts := ainsert e.accounts tx.client_id (handle_claim tx.kind acc amt),
          history := ainsert e.history tx.id { rec with disputed := false } }) := by
  constructor
  · intro hd
    rw [execute_rc_found hk hrec, hd]
    simp
  · intro acc amt hd hacc hamt
    rw [execute_rc_found hk hrec, hd, if_pos rfl]
    exact applyClaim_eq hacc hamt

/-- Witness for C5: a Chargeback on a disputed record of amount 5 with
5 held clears the flag and applies the account chargeback. -/
theorem C5_witness :
    (({ kind := TransactionKind.Deposit, client_id := 1, id := 1,
        amount := some 5, disputed := true } : Transaction).disputed = false →
      PaymentsEngine.execute
        { accounts := [(1, { id := 1, available := 0, held := 5, total := 5, locked := false })],
          history := [(1, { kind := TransactionKind.Deposit, client_id := 1, id := 1,
                            amount := some 5, disputed := true })] }
        (Transaction.new TransactionKind.Chargeback 1 1 none)
      = some
        { accounts := [(1, { id := 1, available := 0, held := 5, total := 5, locked := false })],
          history := [(1, { kind := TransactionKind.Deposit, client_id := 1, id := 1,
                            amount := some 5, disputed := true })] }) ∧
    (∀ acc amt,
      ({ kind := TransactionKind.Deposit, client_id := 1, id := 1,
         amount := some 5, disputed := true } : Transaction).disputed = true →
      alookup [(1, { id := 1, available := 0, held := 5, total := 5, locked := false })]
        (Transaction.new TransactionKind.Chargeback 1 1 none).client_id = some acc →
      ({ kind := TransactionKind.Deposit, client_id := 1, id := 1,
         amount := some 5, disputed := true } : Transaction).amount = some amt →
      PaymentsEngine.execute
        { accounts := [(1, { id := 1, available := 0, held := 5, total := 5, locked := false })],
          history := [(1, { kind := TransactionKind.Deposit, client_id := 1, id := 1,
                            amount := some 5, disputed := true })] }
        (Transaction.new TransactionKind.Chargeback 1 1 none)
      = some
        { accounts := ainsert
            [(1, { id := 1, available := 0, held := 5, total := 5, locked := false })]
            (Transaction.new TransactionKind.Chargeback 1 1 none).client_id
            (handle_claim (Transaction.new TransactionKind.Chargeback 1 1 none).kind acc amt),
          history := ainsert
            [(1, { kind := TransactionKind.Deposit, client_id := 1, id := 1,
                   amount := some 5, disputed := true })]
            (Transaction.new TransactionKind.Chargeback 1 1 none).id
            { kind := TransactionKind.Deposit, client_id := 1, id := 1,
              amount := some 5, disputed := false } }) :=
  C5_resolve_chargeback_flag_protocol
    { accounts := [(1, { id := 1, available := 0, held := 5, total := 5, locked := false })],
      history := [(1, { kind := TransactionKind.Deposit, client_id := 1, id := 1,
                        amount := some 5, disputed := true })] }
    (Transaction.new TransactionKind.Chargeback 1 1 none)
    { kind := TransactionKind.Deposit, client_id := 1, id := 1,
      amount := some 5, disputed := true }
    (Or.inr rfl) rfl

/-- C9: a Dispute whose transaction id is in history rewrites the
record with the disputed flag set to true, whatever its previous value,
and applies Account::dispute with the recorded transfer amount to the
account of the claim client. -/
theorem C9_dispute_sets_flag_and_reapplies (e : PaymentsEngine) (tx rec : Transaction)
    (acc : Account) (amt : ℚ)
    (hk : tx.kind = TransactionKind.Dispute)
    (hrec : alookup e.history tx.id = some rec)
    (hacc : alookup e.accounts tx.client_id = some acc)
    (hamt : rec.amount = some amt) :
    e.execute tx = some
      { accounts := ainsert e.accounts tx.client_id (acc.dispute amt),
        history := ainsert e.history tx.id { rec with disputed := true } } := by
  rw [execute_dispute_found hk hrec, applyClaim_eq hacc hamt, hk]
  rfl

/-- Witness for C9: after deposits of 10 (ids 1, 2) and a dispute of
id 1, a second Dispute of id 1 on the already-disputed record moves 10
from available to held again, doubling the held amount to 20. -/
theorem C9_witness :
    PaymentsEngine.execute
      { accounts := [(1, { id := 1, available := 10, held := 10, total := 20, locked := false })],
        history := [(1, { kind := TransactionKind.Deposit, client_id := 1, id := 1,
                          amount := some 10, disputed := true }),
                    (2, { kind := TransactionKind.Deposit, client_id := 1, id := 2,
                          amount := some 10, disputed := false })] }
      (Transaction.new TransactionKind.Dispute 1 1 none)
      = some
      { accounts := [(1, { id := 1, available := 0, held := 20, total := 20, locked := false })],
        history := [(1, { kind := TransactionKind.Deposit, client_id := 1, id := 1,
                          amount := some 10, disputed := true }),
                    (2, { kind := TransactionKind.Deposit, client_id := 1, id := 2,
                          amount := some 10, disputed := false })] } := by
  have h := C9_dispute_sets_flag_and_reapplies
    { accounts := [(1, { id := 1, available := 10, held := 10, total := 20, locked := false })],
      history := [(1, { kind := TransactionKind.Deposit, client_id := 1, id := 1,
                        amount := some 10, disputed := true }),
                  (2, { kind := TransactionKind.Deposit, client_id := 1, id := 2,
                        amount := some 10, disputed := false })] }
    (Transaction.new TransactionKind.Dispute 1 1 none)
    { kind := TransactionKind.Deposit, client_id := 1, id := 1,
      amount := some 10, disputed := true }
    { id := 1, available := 10, held := 10, total := 20, locked := false }
    10 rfl rfl rfl rfl
  rw [h]
  norm_num [Account.dispute, ainsert, Transaction.new]

/-- C10: the dispute-flag update and the account balance guard are not
atomic.  A Resolve or Chargeback on a disputed record whose recorded
amount exceeds the held balance still clears the flag while leaving the
account table untouched, and a Dispute whose recorded amount exceeds
available still sets the flag while leaving the account table
untouched. -/
theorem C10_flag_balance_nonatomic (e : PaymentsEngine) (tx rec : Transaction)
    (acc : Account) (amt : ℚ)
    (hrec : alookup e.history tx.id = some rec)
    (hacc : alookup e.accounts tx.client_id = some acc)
    (hamt : rec.amount = some amt) :
    ((tx.kind = TransactionKind.Resolve ∨ tx.kind = TransactionKind.Chargeback) →
      rec.disputed = true → acc.held < amt →
      e.execute tx = some
        { accounts := e.accounts,
          history := ainsert e.history tx.id { rec with disputed := false } }) ∧
    (tx.kind = TransactionKind.Dispute → acc.available < amt →
      e.execute tx = some
        { accounts := e.accounts,
          history := ainsert e.history tx.id { rec with disputed := true } }) := by
  constructor
  · intro hk hd hlt
    rw [execute_rc_found hk hrec, hd, if_pos rfl, applyClaim_eq hacc hamt]
    have hnoop : handle_claim tx.kind acc amt = acc := by
      rcases hk with hk | hk <;> rw [hk]
      · show acc.resolve amt = acc
        rw [Account.resolve, if_pos hlt]
      · show acc.chargeback amt = acc
        rw [Account.chargeback, if_pos hlt]
    rw [hnoop, ainsert_lookup_self _ _ _ hacc]
  · intro hk hlt
    rw [execute_dispute_found hk hrec, applyClaim_eq hacc hamt]
    have hnoop : handle_claim tx.kind acc amt = acc := by
      rw [hk]
      show acc.dispute amt = acc
      rw [Account.dispute, if_pos hlt]
    rw [hnoop, ainsert_lookup_self _ _ _ hacc]

/-- Witness for C10: a Resolve on a disputed record of amount 10 while
only 3 is held clears the flag and leaves the account table untouched,
stranding the held funds. -/
theorem C10_witness :
    PaymentsEngine.execute
      { accounts := [(1, { id := 1, available := 5, held := 3, total := 8, locked := false })],
        history := [(1, { kind := TransactionKind.Deposit, client_id := 1, id := 1,
                          amount := some 10, disputed := true })] }
      (Transaction.new TransactionKind.Resolve 1 1 none)
      = some
      { accounts := [(1, { id := 1, available := 5, held := 3, total := 8, locked := false })],
        history := [(1, { kind := TransactionKind.Deposit, client_id := 1, id := 1,
                          amount := some 10, disputed := false })] } := by
  have h := (C10_flag_balance_nonatomic
    { accounts := [(1, { id := 1, available := 5, held := 3, total := 8, locked := false })],
      history := [(1, { kind := TransactionKind.Deposit, client_id := 1, id := 1,
                        amount := some 10, disputed := true })] }
    (Transaction.new TransactionKind.Resolve 1 1 none)
    { kind := TransactionKind.Deposit, client_id := 1, id := 1,
      amount := some 10, disputed := true }
    { id := 1, available := 5, held := 3, total := 8, locked := false }
    10 rfl rfl rfl).1 (Or.inl rfl) rfl (by norm_num)
  rw [h]
  norm_num [ainsert, Transaction.new]

/-- C2 counterexample: a deposit of 10 followed by a withdrawal of 5
for the same client.  The withdrawal succeeds (5 is at most the 10
available, the final account shows available 5) yet the final history
contains only the deposit under id 1 and no entry under id 2 -- the
source records a transfer when its kind is Deposit, discarding the
success bool of Account::withdraw, so a successful withdrawal is never
recorded, refuting the claim that it is. -/
theorem C2_counterexample :
    execRun PaymentsEngine.new
      [Transaction.new TransactionKind.Deposit 1 1 (some 10),
       Transaction.new TransactionKind.Withdrawal 1 2 (some 5)]
      = some
      { accounts := [(1, { id := 1, available := 5, held := 0, total := 5, locked := false })],
        history := [(1, Transaction.new TransactionKind.Deposit 1 1 (some 10))] } := by
  norm_num +decide [execRun, PaymentsEngine.execute, PaymentsEngine.new, handle_transfer,
    Account.new, Account.deposit, Account.withdraw, alookup, ainsert, Transaction.new]

/-- C2 as amended: a transfer transaction is inserted into history
keyed by its id exactly when its kind is Deposit; a withdrawal is never
recorded, whether it succeeded or not. -/
theorem C2_amended_history_records_deposits_only (e : PaymentsEngine)
    (tx : Transaction) (amt : ℚ) (hamt : tx.amount = some amt) :
    (tx.kind = TransactionKind.Deposit →
      Option.map PaymentsEngine.history (e.execute tx)
        = some (ainsert e.history tx.id tx)) ∧
    (tx.kind = TransactionKind.Withdrawal →
      Option.map PaymentsEngine.history (e.execute tx) = some e.history) := by
  constructor
  · intro hk
    rw [execute_deposit hk hamt]
    rfl
  · intro hk
    rw [execute_withdrawal hk hamt]
    rfl

/-- Witness for the amended C2: a successful withdrawal of 5 against 10
available leaves history exactly as it was. -/
theorem C2_witness :
    Option.map PaymentsEngine.history
      (PaymentsEngine.execute
        { accounts := [(1, { id := 1, available := 10, held := 0, total := 10, locked := false })],
          history := [(1, Transaction.new TransactionKind.Deposit 1 1 (some 10))] }
        (Transaction.new TransactionKind.Withdrawal 1 2 (some 5)))
      = some [(1, Transaction.new TransactionKind.Deposit 1 1 (some 10))] :=
  (C2_amended_history_records_deposits_only
    { accounts := [(1, { id := 1, available := 10, held := 0, total := 10, locked := false })],
      history := [(1, Transaction.new TransactionKind.Deposit 1 1 (some 10))] }
    (Transaction.new TransactionKind.Withdrawal 1 2 (some 5)) 5 rfl).2 rfl

/-- C3 counterexample: a deposit by client 1 under transaction id 1,
then a Dispute naming transaction id 1 but client 2.  The id is in
history and a Dispute always permits proceeding, yet client 2 has no
account, so the account lookup on the claim path fails -- the unwrap in
the source panics, modelled as none -- refuting the claim that the
lookup never fails. -/
theorem C3_counterexample :
    execRun PaymentsEngine.new
      [Transaction.new TransactionKind.Deposit 1 1 (some 10),
       Transaction.new TransactionKind.Dispute 2 1 none] = none := by
  norm_num +decide [execRun, PaymentsEngine.execute, PaymentsEngine.applyClaim,
    PaymentsEngine.new, handle_transfer, Account.new, Account.deposit,
    alookup, ainsert, Transaction.new]

/-- C3 as amended: on any engine reachable from a fresh one, whenever a
claim transaction finds its id in history, its flag update permits
proceeding, and its client id agrees with the recorded transfer's
client id, the account exists, the lookup succeeds, and the claim is
applied with the recorded transfer's amount -- not any amount carried
by the claim itself. -/
theorem C3_amended_claim_lookup_safe (txs : List Transaction) (e : PaymentsEngine)
    (tx rec : Transaction)
    (hrun : execRun PaymentsEngine.new txs = some e)
    (hk : tx.kind = TransactionKind.Dispute ∨ tx.kind = TransactionKind.Resolve ∨
          tx.kind = TransactionKind.Chargeback)
    (hrec : alookup e.history tx.id = some rec)
    (hclient : rec.client_id = tx.client_id)
    (hflag : tx.kind = TransactionKind.Dispute ∨ rec.disputed = true) :
    ∃ acc amt e', alookup e.accounts tx.client_id = some acc ∧
      rec.amount = some amt ∧
      e.execute tx = some e' ∧
      alookup e'.accounts tx.client_id = some (handle_claim tx.kind acc amt) := by
  have hinv := execRun_some_inv txs PaymentsEngine.new e engineInv_new hrun
  obtain ⟨hamtS, haccS⟩ := hinv.2 tx.id rec hrec
  rw [hclient] at haccS
  obtain ⟨acc, hacc⟩ := Option.isSome_iff_exists.mp haccS
  obtain ⟨amt, hamt⟩ := Option.isSome_iff_exists.mp hamtS
  rcases hk with hk | hk | hk
  · have hexec : e.execute tx = some
        { accounts := ainsert e.accounts tx.client_id (handle_claim tx.kind acc amt),
          history := ainsert e.history tx.id { rec with disputed := true } } := by
      rw [execute_dispute_found hk hrec]
      exact applyClaim_eq hacc hamt
    refine ⟨acc, amt, _, hacc, hamt, hexec, ?_⟩
    simp [alookup_ainsert]
  · have hd : rec.disputed = true := by
      rcases hflag with hf | hf
      · rw [hk] at hf
        exact absurd hf (by decide)
      · exact hf
    have hexec : e.execute tx = some
        { accounts := ainsert e.accounts tx.client_id (handle_claim tx.kind acc amt),
          history := ainsert e.history tx.id { rec with disputed := false } } := by
      rw [execute_rc_found (Or.inl hk) hrec, hd, if_pos rfl]
      exact applyClaim_eq hacc hamt
    refine ⟨acc, amt, _, hacc, hamt, hexec, ?_⟩
    simp [alookup_ainsert]
  · have hd : rec.disputed = true := by
      rcases hflag with hf | hf
      · rw [hk] at hf
        exact absurd hf (by decide)
      · exact hf
    have hexec : e.execute tx = some
        { accounts := ainsert e.accounts tx.client_id (handle_claim tx.kind acc amt),
          history := ainsert e.history tx.id { rec with disputed := false } } := by
      rw [execute_rc_found (Or.inr hk) hrec, hd, if_pos rfl]
      exact applyClaim_eq hacc hamt
    refine ⟨acc, amt, _, hacc, hamt, hexec, ?_⟩
    simp [alookup_ainsert]

/-- Witness for the amended C3: after a deposit of 10 by client 1, a
Dispute by client 1 on id 1 carrying an irrelevant amount of 999 finds
the account and applies the claim with the recorded amount. -/
theorem C3_witness :
    ∃ acc amt e',
      alookup [(1, { id := 1, available := 10, held := 0, total := 10, locked := false })]
        (Transaction.new TransactionKind.Dispute 1 1 (some 999)).client_id = some acc ∧
      (Transaction.new TransactionKind.Deposit 1 1 (some 10)).amount = some amt ∧
      PaymentsEngine.execute
        { accounts := [(1, { id := 1, available := 10, held := 0, total := 10, locked := false })],
          history := [(1, Transaction.new TransactionKind.Deposit 1 1 (some 10))] }
        (Transaction.new TransactionKind.Dispute 1 1 (some 999)) = some e' ∧
      alookup e'.accounts (Transaction.new TransactionKind.Dispute 1 1 (some 999)).client_id
        = some (handle_claim (Transaction.new TransactionKind.Dispute 1 1 (some 999)).kind acc amt) :=
  C3_amended_claim_lookup_safe
    [Transaction.new TransactionKind.Deposit 1 1 (some 10)]
    { accounts := [(1, { id := 1, available := 10, held := 0, total := 10, locked := false })],
      history := [(1, Transaction.new TransactionKind.Deposit 1 1 (some 10))] }
    (Transaction.new TransactionKind.Dispute 1 1 (some 999))
    (Transaction.new TransactionKind.Deposit 1 1 (some 10))
    (by norm_num +decide [execRun, PaymentsEngine.execute, PaymentsEngine.new,
          handle_transfer, Account.new, Account.deposit, alookup, ainsert, Transaction.new])
    (Or.inl rfl) rfl rfl (Or.inl rfl)

/-- C8 counterexample: the round trip fails on an account whose held
balance is negative.  With available 1 and held -1, disputing 1 moves
the account to available 0, held 0; the following resolve of 1 is then
rejected by the held guard, so the composite does not return to the
original state, refuting the claim for arbitrary account states. -/
theorem C8_counterexample :
    ((1 : ℚ) ≤ ({ id := 1, available := 1, held := -1, total := 0, locked := false } : Account).available) ∧
    (({ id := 1, available := 1, held := -1, total := 0, locked := false } : Account).dispute 1).resolve 1
      ≠ { id := 1, available := 1, held := -1, total := 0, locked := false } := by
  constructor
  · norm_num
  · norm_num [Account.dispute, Account.resolve]

/-- C8 as amended: on any account whose held balance is nonnegative,
disputing an amount at most available and then resolving the same
amount is the identity on all four fields. -/
theorem C8_amended_dispute_resolve_roundtrip (acc : Account) (a : ℚ)
    (hheld : 0 ≤ acc.held) (hav : a ≤ acc.available) :
    (acc.dispute a).resolve a = acc := by
  rw [Account.dispute, if_neg (not_lt.mpr hav), Account.resolve,
    if_neg (not_lt.mpr (show a ≤ acc.held + a by linarith))]
  cases acc
  simp

/-- Witness for the amended C8: deposit-like state with available 10
and held 0; disputing 4 then resolving 4 restores the account. -/
theorem C8_witness :
    (({ id := 1, available := 10, held := 0, total := 10, locked := false } : Account).dispute 4).resolve 4
      = { id := 1, available := 10, held := 0, total := 10, locked := false } :=
  C8_amended_dispute_resolve_roundtrip
    { id := 1, available := 10, held := 0, total := 10, locked := false } 4
    (by norm_num) (by norm_num)
